import Mathlib

/-!
Verification of the two text-rewriting scripts of the `mineral_map`
repository (`add_appearance_control.py` and `fix_appearance_control.py`).

The scripts patch a generated Leaflet HTML file by regular-expression
substitution.  We embed the document as a list of characters and each regex
used by the scripts as an *anchored matcher*: a function that, at the head of
the input, either fails or returns (captured groups, matched text, remaining
input).  Leftmost search, `re.sub`, `re.search` and `re.findall` are then
generic drivers over anchored matchers.  Every matcher below mirrors one
regex literal of the Python source; greedy character classes (`[a-f0-9]+`,
`[^"]+`, `\s*`) are maximal-munch safe in each place they are used because
the following literal cannot extend the class, and the lazy gaps (`.*?`) are
compiled so that the whole continuation of the pattern is retried at each
offset, which coincides with the backtracking semantics of `re`.
-/

set_option maxRecDepth 100000

namespace MMap

/-- A document is modelled as its list of characters. -/
abbrev Doc := List Char

/-- Characters of a string literal. -/
def str (s : String) : Doc := s.data

/-- An anchored pattern matcher: at the head of the input it either fails or
returns (captured groups, matched text, remaining input). -/
abbrev MatchFn (α : Type) := Doc → Option (α × Doc × Doc)

/-- A literal pattern (a regex piece with no metacharacters). -/
def mLit (pat : Doc) : MatchFn Unit := fun s =>
  if pat.isPrefixOf s then some ((), pat, List.drop pat.length s) else none

/-- Sequencing of two anchored patterns. -/
def mThen (m₁ : MatchFn α) (m₂ : MatchFn β) : MatchFn (α × β) := fun s =>
  match m₁ s with
  | none => none
  | some (a, x₁, r₁) =>
    match m₂ r₁ with
    | none => none
    | some (b, x₂, r₂) => some ((a, b), x₁ ++ x₂, r₂)

/-- Post-process the captures of a matcher. -/
def mMap (f : α → β) (m : MatchFn α) : MatchFn β := fun s =>
  match m s with
  | none => none
  | some (a, x, r) => some (f a, x, r)

/-- Greedy one-or-more character class, regex `[...]+`. -/
def mPlus (p : Char → Bool) : MatchFn Doc := fun s =>
  if (s.takeWhile p).isEmpty then none
  else some (s.takeWhile p, s.takeWhile p, s.dropWhile p)

/-- Greedy zero-or-more character class, regex `[...]*`. -/
def mStar (p : Char → Bool) : MatchFn Doc := fun s =>
  some (s.takeWhile p, s.takeWhile p, s.dropWhile p)

/-- Lazy gap `.*?` under `re.DOTALL`, followed by the continuation `m`: the
continuation is tried at every offset, nearest first; the gap is captured. -/
def mUntil (m : MatchFn α) : Doc → Option ((Doc × α) × Doc × Doc)
  | [] =>
    match m [] with
    | some (a, x, r) => some (([], a), x, r)
    | none => none
  | c :: t =>
    match m (c :: t) with
    | some (a, x, r) => some (([], a), x, r)
    | none =>
      match mUntil m t with
      | some (g, x, r) => some ((c :: g.1, g.2), c :: x, r)
      | none => none

/-- Lazy gap `.*?` without `re.DOTALL`: as `mUntil`, but the gap may not
cross a newline. -/
def mUntilNoNL (m : MatchFn α) : Doc → Option ((Doc × α) × Doc × Doc)
  | [] =>
    match m [] with
    | some (a, x, r) => some (([], a), x, r)
    | none => none
  | c :: t =>
    match m (c :: t) with
    | some (a, x, r) => some (([], a), x, r)
    | none =>
      if c = '\n' then none
      else
        match mUntilNoNL m t with
        | some (g, x, r) => some ((c :: g.1, g.2), c :: x, r)
        | none => none

/-- Leftmost search of an anchored matcher, as in `re.search`: returns the
text before the match, the captures, the matched text and the rest. -/
def scanFirst (m : MatchFn α) : Doc → Option (Doc × α × Doc × Doc)
  | [] =>
    match m [] with
    | some (a, x, r) => some ([], a, x, r)
    | none => none
  | c :: t =>
    match m (c :: t) with
    | some (a, x, r) => some ([], a, x, r)
    | none =>
      match scanFirst m t with
      | some (p, a, x, r) => some (c :: p, a, x, r)
      | none => none

/-- `re.sub(..., count=1)`: replace the leftmost match, if any, by a
function of its captures and matched text. -/
def subFirst (m : MatchFn α) (repl : α → Doc → Doc) (s : Doc) : Doc :=
  match scanFirst m s with
  | none => s
  | some (p, a, x, r) => p ++ repl a x ++ r

/-- Fuelled worker for `subAll`; the fuel strictly exceeds the length of the
text, which bounds the number of (nonempty) matches. -/
def subAllGo (m : MatchFn α) (repl : α → Doc → Doc) : Nat → Doc → Doc
  | 0, s => s
  | f + 1, s =>
    match scanFirst m s with
    | none => s
    | some (p, a, x, r) => p ++ repl a x ++ subAllGo m repl f r

/-- `re.sub` without a count: replace every non-overlapping match, scanning
left to right and continuing after each match. -/
def subAll (m : MatchFn α) (repl : α → Doc → Doc) (s : Doc) : Doc :=
  subAllGo m repl (s.length + 1) s

/-- Fuelled worker for `findAll`. -/
def findAllGo (m : MatchFn α) : Nat → Doc → List α
  | 0, _ => []
  | f + 1, s =>
    match scanFirst m s with
    | none => []
    | some (_, a, _, r) => a :: findAllGo m f r

/-- `re.findall` collecting the captures of each non-overlapping match. -/
def findAll (m : MatchFn α) (s : Doc) : List α :=
  findAllGo m (s.length + 1) s

/-- Fuelled worker for `findAllTexts`. -/
def findAllTextsGo (m : MatchFn α) : Nat → Doc → List Doc
  | 0, _ => []
  | f + 1, s =>
    match scanFirst m s with
    | none => []
    | some (_, _, x, r) => x :: findAllTextsGo m f r

/-- `re.findall` collecting the full matched text of each match (what
`findall` returns for a pattern without groups). -/
def findAllTexts (m : MatchFn α) (s : Doc) : List Doc :=
  findAllTextsGo m (s.length + 1) s

/-- Number of non-overlapping occurrences of a literal substring. -/
def countOccur (pat s : Doc) : Nat := (findAllTexts (mLit pat) s).length

/-- `str.replace(old, new)`: replace every occurrence of a literal. -/
def pyReplace (old new s : Doc) : Doc := subAll (mLit old) (fun _ _ => new) s

/-- `str.replace(old, new, 1)`: replace the first occurrence of a literal. -/
def pyReplaceFirst (old new s : Doc) : Doc :=
  subFirst (mLit old) (fun _ _ => new) s

/-- Soundness of an anchored matcher: the matched text is a prefix of the
input and the rest is the corresponding suffix. -/
def MOk (m : MatchFn α) : Prop :=
  ∀ ⦃s : Doc⦄ ⦃a : α⦄ ⦃x r : Doc⦄, m s = some (a, x, r) → s = x ++ r

/-- Productivity of an anchored matcher: the matched text is nonempty. -/
def MNe (m : MatchFn α) : Prop :=
  ∀ ⦃s : Doc⦄ ⦃a : α⦄ ⦃x r : Doc⦄, m s = some (a, x, r) → x ≠ []


/-- Character class `[a-f0-9]` of the layer / map identifier patterns. -/
def isHexL (c : Char) : Bool :=
  c.isDigit || (decide ('a' ≤ c) && decide (c ≤ 'f'))

/-- Python's `\s` class: `[ \t\n\r\f\v]`. -/
def pySpace (c : Char) : Bool :=
  [ ' ', '\t', '\n', '\r', '\x0b', '\x0c'].contains c

/-- Character class `[^"]`. -/
def notQuote (c : Char) : Bool := c != '\x22'

/-- Character class `[^}]`. -/
def notRBrace (c : Char) : Bool := c != '\x7d'

/-- Character class `[\d.]`. -/
def digitDot (c : Char) : Bool := c.isDigit || c == '.'

/-- Regex `var (geo_json_[a-f0-9]+) = L\.geoJson`; captures the identifier. -/
def mGeoDecl : MatchFn Doc :=
  mMap (fun t => str "geo_json_" ++ t.2.1)
    (mThen (mLit (str "var geo_json_"))
      (mThen (mPlus isHexL) (mLit (str " = L.geoJson"))))

/-- Regex `var (tile_layer_[a-f0-9]+) = L\.tileLayer`; captures the
identifier. -/
def mTileDecl : MatchFn Doc :=
  mMap (fun t => str "tile_layer_" ++ t.2.1)
    (mThen (mLit (str "var tile_layer_"))
      (mThen (mPlus isHexL) (mLit (str " = L.tileLayer"))))

/-- Regex `var layer_control_.*?_layers = \{(.*?)\};` with `re.DOTALL`;
captures the body of the layer-control mapping object. -/
def mLayerControlBlock : MatchFn Doc :=
  mMap (fun t => t.2.2.2.1)
    (mThen (mLit (str "var layer_control_"))
      (mUntil (mThen (mLit (str "_layers = \x7b")) (mUntil (mLit (str "\x7d;"))))))

/-- Regex `base_layers\s*:\s*\{(.*?)\}` with `re.DOTALL`; captures the body
of the base-layers object. -/
def mBaseBlock : MatchFn Doc :=
  mMap (fun t => t.2.2.2.2.2.1)
    (mThen (mLit (str "base_layers"))
      (mThen (mStar pySpace)
        (mThen (mLit (str ":"))
          (mThen (mStar pySpace)
            (mThen (mLit (str "\x7b")) (mUntil (mLit (str "\x7d"))))))))

/-- Regex `overlays\s*:\s*\{(.*?)\}` with `re.DOTALL`; captures the body of
the overlays object. -/
def mOverlayBlock : MatchFn Doc :=
  mMap (fun t => t.2.2.2.2.2.1)
    (mThen (mLit (str "overlays"))
      (mThen (mStar pySpace)
        (mThen (mLit (str ":"))
          (mThen (mStar pySpace)
            (mThen (mLit (str "\x7b")) (mUntil (mLit (str "\x7d"))))))))

/-- Regex `"([^"]+)"\s*:\s*(tile_layer_[a-f0-9]+)`; captures the display
name and the variable identifier. -/
def mKVTile : MatchFn (Doc × Doc) :=
  mMap (fun t => (t.2.1, str "tile_layer_" ++ t.2.2.2.2.2.2.2))
    (mThen (mLit (str "\x22"))
      (mThen (mPlus notQuote)
        (mThen (mLit (str "\x22"))
          (mThen (mStar pySpace)
            (mThen (mLit (str ":"))
              (mThen (mStar pySpace)
                (mThen (mLit (str "tile_layer_")) (mPlus isHexL))))))))

/-- Regex `"([^"]+)"\s*:\s*(geo_json_[a-f0-9]+)`; captures the display name
and the variable identifier. -/
def mKVGeo : MatchFn (Doc × Doc) :=
  mMap (fun t => (t.2.1, str "geo_json_" ++ t.2.2.2.2.2.2.2))
    (mThen (mLit (str "\x22"))
      (mThen (mPlus notQuote)
        (mThen (mLit (str "\x22"))
          (mThen (mStar pySpace)
            (mThen (mLit (str ":"))
              (mThen (mStar pySpace)
                (mThen (mLit (str "geo_json_")) (mPlus isHexL))))))))

/-- Regex `function {layer_id}_styler\(feature\) \{.*?return \{([^}]+)\};`
with `re.DOTALL`; captures the body of the returned style object. -/
def mStyler (layer_id : Doc) : MatchFn Doc :=
  mMap (fun t => t.2.2.2.1)
    (mThen (mLit (str "function " ++ layer_id ++ str "_styler(feature) \x7b"))
      (mUntil
        (mThen (mLit (str "return \x7b"))
          (mThen (mPlus notRBrace) (mLit (str "\x7d;"))))))

/-- Regex `"fillColor"\s*:\s*"([^"]+)"`; captures the color string. -/
def mFillColor : MatchFn Doc :=
  mMap (fun t => t.2.2.2.2.2.1)
    (mThen (mLit (str "\x22fillColor\x22"))
      (mThen (mStar pySpace)
        (mThen (mLit (str ":"))
          (mThen (mStar pySpace)
            (mThen (mLit (str "\x22"))
              (mThen (mPlus notQuote) (mLit (str "\x22"))))))))

/-- Regex `"fillOpacity"\s*:\s*([\d.]+)`; captures the numeric literal. -/
def mFillOpacity : MatchFn Doc :=
  mMap (fun t => t.2.2.2.2)
    (mThen (mLit (str "\x22fillOpacity\x22"))
      (mThen (mStar pySpace)
        (mThen (mLit (str ":")) (mThen (mStar pySpace) (mPlus digitDot)))))

/-- Regex `(<script src="https://cdn\.jsdelivr\.net/npm/leaflet@.*?</script>)`
(no `re.DOTALL`, so the gap may not cross a newline). -/
def mLeafletScript : MatchFn Unit :=
  mMap (fun _ => ())
    (mThen (mLit (str "<script src=\x22https://cdn.jsdelivr.net/npm/leaflet@"))
      (mUntilNoNL (mLit (str "</script>"))))

/-- Regex
`(<link rel="stylesheet" href="https://cdn\.jsdelivr\.net/npm/leaflet@.*?/>)`
(no `re.DOTALL`). -/
def mLeafletCss : MatchFn Unit :=
  mMap (fun _ => ())
    (mThen
      (mLit (str "<link rel=\x22stylesheet\x22 href=\x22https://cdn.jsdelivr.net/npm/leaflet@"))
      (mUntilNoNL (mLit (str "/>"))))

/-- Regex `var (map_[a-f0-9]+) = L\.map`; captures the map identifier. -/
def mMapDecl : MatchFn Doc :=
  mMap (fun t => str "map_" ++ t.2.1)
    (mThen (mLit (str "var map_"))
      (mThen (mPlus isHexL) (mLit (str " = L.map"))))

/-- Head literal of the appearance-control pattern. -/
def appHeader : Doc := str "var appearanceControl = L.control.appearance("

/-- Regex
`(var appearanceControl = L\.control\.appearance\(.*?\))\.addTo\((map_[a-f0-9]+)\);`
with `re.DOTALL`; captures the gap of group 1 and the hex part of group 2. -/
def mAppearance : MatchFn (Doc × Doc) :=
  mMap (fun t => (t.2.1, t.2.2.2.1))
    (mThen (mLit appHeader)
      (mUntil
        (mThen (mLit (str ").addTo(map_"))
          (mThen (mPlus isHexL) (mLit (str ");"))))))

/-- Regex
`var layer_control_[a-f0-9]+_layers = \{.*?\};.*?let layer_control_[a-f0-9]+ = L\.control\.layers\(.*?\)\.addTo\(map_[a-f0-9]+\);`
with `re.DOTALL`. -/
def mControlPattern : MatchFn Unit :=
  mMap (fun _ => ())
    (mThen (mLit (str "var layer_control_"))
      (mThen (mPlus isHexL)
        (mThen (mLit (str "_layers = \x7b"))
          (mUntil
            (mThen (mLit (str "\x7d;"))
              (mUntil
                (mThen (mLit (str "let layer_control_"))
                  (mThen (mPlus isHexL)
                    (mThen (mLit (str " = L.control.layers("))
                      (mUntil
                        (mThen (mLit (str ").addTo(map_"))
                          (mThen (mPlus isHexL) (mLit (str ");"))))))))))))))

/-- Regex `(var {layer_id} = L\.tileLayer\(\s*"[^"]+",\s*\{)` of the fixup
pass's tile-name injection. -/
def mTileCtor (layer_id : Doc) : MatchFn Unit :=
  mMap (fun _ => ())
    (mThen (mLit (str "var " ++ layer_id ++ str " = L.tileLayer("))
      (mThen (mStar pySpace)
        (mThen (mLit (str "\x22"))
          (mThen (mPlus notQuote)
            (mThen (mLit (str "\x22,"))
              (mThen (mStar pySpace) (mLit (str "\x7b"))))))))

/-- Regex `tile_layer_[a-f0-9]+\.addTo\(map_[a-f0-9]+\);` of the fixup
pass's auto-attach scan. -/
def mAddToCall : MatchFn Unit :=
  mMap (fun _ => ())
    (mThen (mLit (str "tile_layer_"))
      (mThen (mPlus isHexL)
        (mThen (mLit (str ".addTo(map_"))
          (mThen (mPlus isHexL) (mLit (str ");"))))))

/-- The layer information collected by `extract_layer_info`. -/
structure LayerInfo where
  geojson_layers : List Doc
  tile_layers : List Doc
  layer_names : List (Doc × Doc)

/-- Python dict assignment `d[k] = v` on an insertion-ordered dictionary. -/
def dictInsert (k v : Doc) : List (Doc × Doc) → List (Doc × Doc)
  | [] => [(k, v)]
  | e :: t => if e.1 = k then (k, v) :: t else e :: dictInsert k v t

/-- Python dict lookup `d.get(k)`. -/
def dictFind : List (Doc × Doc) → Doc → Option Doc
  | [], _ => none
  | e :: t, k => if e.1 = k then some e.2 else dictFind t k

/-- Python dict lookup with default, `d.get(k, dflt)`. -/
def dictGet (d : List (Doc × Doc)) (k dflt : Doc) : Doc :=
  (dictFind d k).getD dflt

/-- The literal six-character entity sequence unescaped in overlay names. -/
def uEscape : Doc := str "\\u003e"

/-- `AppearanceControlModifier.extract_layer_info`: collect GeoJSON layer
ids, tile layer ids, and the display-name mapping from the legacy layer
control block (overlay names have the `>` entity sequence replaced by
`>` before storage; base-layer names are stored verbatim). -/
def extract_layer_info (content : Doc) : LayerInfo :=
  let geojson_layers := findAll mGeoDecl content
  let tile_layers := findAll mTileDecl content
  let layer_names :=
    match scanFirst mLayerControlBlock content with
    | none => []
    | some (_, control_content, _, _) =>
      let d₁ :=
        match scanFirst mBaseBlock control_content with
        | none => []
        | some (_, base_content, _, _) =>
          (findAll mKVTile base_content).foldl
            (fun d kv => dictInsert kv.2 kv.1 d) []
      match scanFirst mOverlayBlock control_content with
      | none => d₁
      | some (_, overlay_content, _, _) =>
        (findAll mKVGeo overlay_content).foldl
          (fun d kv => dictInsert kv.2 (pyReplace uEscape (str ">") kv.1) d) d₁
  { geojson_layers := geojson_layers, tile_layers := tile_layers,
    layer_names := layer_names }

/-- `AppearanceControlModifier.extract_layer_styles`: locate the layer's
styler function and extract `fillColor` and `fillOpacity` from its returned
style object, with the fixed defaults `#000000` and `0.6` when the styler
or the respective field is absent.  Python parses the opacity literal with
`float` and later re-interpolates it; that numeric round trip is modelled
as the captured decimal literal itself. -/
def extract_layer_styles (content layer_id : Doc) : Doc × Doc :=
  match scanFirst (mStyler layer_id) content with
  | none => (str "#000000", str "0.6")
  | some (_, style_content, _, _) =>
    let fill_color :=
      match scanFirst mFillColor style_content with
      | some (_, c, _, _) => c
      | none => str "#000000"
    let fill_opacity :=
      match scanFirst mFillOpacity style_content with
      | some (_, o, _, _) => o
      | none => str "0.6"
    (fill_color, fill_opacity)

/-- The literal constructor prefix `var {layer_id} = L.geoJson(null, {`
matched (and kept) by `modify_geojson_layers`. -/
def geoJsonCtor (layer_id : Doc) : Doc :=
  str "var " ++ layer_id ++ str " = L.geoJson(null, \x7b"

/-- The `options_code` text appended right after the opening brace of the
layer's options object: the three injected fields, in order. -/
def options_code (layer_name fill_color fill_opacity : Doc) : Doc :=
  str "\n                name: \x22" ++ layer_name
    ++ str "\x22,\n                color: \x22" ++ fill_color
    ++ str "\x22,\n                opacity: " ++ fill_opacity ++ str ","

/-- `AppearanceControlModifier.modify_geojson_layers`: for each GeoJSON
layer found, inject `name`, `color` and `opacity` as the first fields of
its options object (the styles are re-extracted from the content as it is
being rewritten, exactly as the Python loop reads `self.content`). -/
def modify_geojson_layers (info : LayerInfo) (content : Doc) : Doc :=
  info.geojson_layers.foldl
    (fun c layer_id =>
      let layer_name := dictGet info.layer_names layer_id layer_id
      let st := extract_layer_styles c layer_id
      subAll (mLit (geoJsonCtor layer_id))
        (fun _ x => x ++ options_code layer_name st.1 st.2) c)
    content

/-- The plugin `<script>` reference inserted by `add_plugin_references`. -/
def plugin_script : Doc :=
  str "    <script src=\x22https://cdn.jsdelivr.net/gh/Kanahiro/Leaflet.Control.Appearance@master/dist/L.Control.Appearance.js\x22></script>"

/-- The plugin stylesheet reference inserted by `add_plugin_references`. -/
def plugin_css : Doc :=
  str "    <link rel=\x22stylesheet\x22 href=\x22https://cdn.jsdelivr.net/gh/Kanahiro/Leaflet.Control.Appearance@master/dist/L.Control.Appearance.css\x22/>"

/-- First substitution of `add_plugin_references` (`re.sub(..., count=1)`):
insert the plugin script right after the Leaflet script tag. -/
def insert_plugin_script (content : Doc) : Doc :=
  subFirst mLeafletScript (fun _ x => x ++ str "\n" ++ plugin_script) content

/-- Second substitution of `add_plugin_references` (`re.sub(..., count=1)`):
insert the plugin stylesheet right after the Leaflet stylesheet tag. -/
def insert_plugin_css (content : Doc) : Doc :=
  subFirst mLeafletCss (fun _ x => x ++ str "\n" ++ plugin_css) content

/-- `AppearanceControlModifier.add_plugin_references` on the content. -/
def add_plugin_references (content : Doc) : Doc :=
  insert_plugin_css (insert_plugin_script content)

/-- `AppearanceControlModifier.create_layer_arrays`: the three generated
array declarations, populated in discovery order. -/
def create_layer_arrays (info : LayerInfo) : Doc :=
  str "        var baseLayers = [\n"
    ++ info.tile_layers.foldl
        (fun acc t => acc ++ str "            " ++ t ++ str ",\n") []
    ++ str "        ];\n\n"
    ++ str "        var uneditableOverlays = [];\n\n"
    ++ str "        var overlays = [\n"
    ++ info.geojson_layers.foldl
        (fun acc g => acc ++ str "            " ++ g ++ str ",\n") []
    ++ str "        ];\n\n"

/-- The replacement appearance-control instantiation (verbatim template of
the Python source, including its hard-coded map identifier). -/
def appearance_control_code : Doc :=
  str "var appearanceControl = L.control.appearance(\n            baseLayers,\n            uneditableOverlays,\n            overlays,\n            \x7b\n                position: \x27topright\x27,\n                radioCheckbox: true,\n                layerName: true,\n                opacity: true,\n                color: true,\n                remove: true\n            \x7d\n        ).addTo(map_d2a376f3bebc49e2468588d70e0e50c9);"

/-- The modifier's mutable state: the document buffer and the ordered
modification log (`self.content`, `self.modifications`). -/
structure ModState where
  content : Doc
  modifications : List String

/-- `AppearanceControlModifier.replace_layer_control`: replace every match
of the legacy control block with the generated arrays plus the appearance
control, and log the step (the method logs unconditionally and never
raises; with no match the substitution returns the content unchanged). -/
def replace_layer_control (info : LayerInfo) (st : ModState) : ModState :=
  let replacement := create_layer_arrays info ++ appearance_control_code
  { content := subAll mControlPattern (fun _ _ => replacement) st.content,
    modifications := st.modifications
      ++ ["Replaced L.control.layers() with L.control.appearance()"] }

/-- The fixed positional name table of the fixup pass
(`list(tile_layer_names.values())`, four entries). -/
def tile_layer_names : List Doc :=
  [str "OpenStreetMap", str "Topographic Map", str "Light Map",
   str "Satellite Imagery"]

/-- Fixup pass, step 2: for the i-th discovered tile layer with `i < 4`,
inject `"name": <table[i]>` right after the opening brace of its options
object; tile layers past the table receive nothing. -/
def add_tile_names (tile_layers : List Doc) (content : Doc) : Doc :=
  tile_layers.enum.foldl
    (fun c p =>
      match tile_layer_names.get? p.1 with
      | none => c
      | some layer_name =>
        subAll (mTileCtor p.2)
          (fun _ x => x ++ str "\n  \x22name\x22: \x22" ++ layer_name ++ str "\x22,")
          c)
    content

/-- Trailing comment text appended when an auto-attach call is disabled. -/
def comment_suffix : Doc := str " // Commented out - managed by appearance control"

/-- Fixup pass, step 3: find all tile-layer `.addTo(map_...)` calls; when
more than one exists, comment out every one except the first (each by a
first-occurrence literal replacement, as `str.replace(call, ..., 1)`). -/
def comment_extra_addto (content : Doc) : Doc :=
  let addto_calls := findAllTexts mAddToCall content
  if 1 < addto_calls.length then
    addto_calls.enum.foldl
      (fun c p =>
        if 0 < p.1 then
          pyReplaceFirst p.2 (str "// " ++ p.2 ++ comment_suffix) c
        else c)
      content
  else content

/-- Fixup pass, step 4: find the appearance control's `.addTo` call; if its
map identifier already equals the detected one, leave the document
unchanged, otherwise rewrite the attach target of every match. -/
def fix_map_id (actual_map_id : Doc) (content : Doc) : Doc :=
  match scanFirst mAppearance content with
  | none => content
  | some (_, g, _, _) =>
    if str "map_" ++ g.2 = actual_map_id then content
    else
      subAll mAppearance
        (fun g' _ => appHeader ++ g'.1 ++ str ")" ++ str ".addTo("
          ++ actual_map_id ++ str ");")
        content

/-- `fix_appearance_control`: detect the map variable (returning `none`,
hence not saving, when absent), then run the three fix steps in order. -/
def fix_appearance_control (content : Doc) : Option Doc :=
  match scanFirst mMapDecl content with
  | none => none
  | some (_, actual_map_id, _, _) =>
    let tile_layers := findAll mTileDecl content
    let c₁ := add_tile_names tile_layers content
    let c₂ := comment_extra_addto c₁
    let c₃ := fix_map_id actual_map_id c₂
    some c₃

/-- The directory next to the scripts, as a name-to-content mapping. -/
abbrev FS := List (String × Doc)

/-- File read (`Path.exists` / `open(..., "r")`). -/
def fsLookup : FS → String → Option Doc
  | [], _ => none
  | e :: t, n => if e.1 = n then some e.2 else fsLookup t n

/-- File write (`open(..., "w")` / `shutil.copy2`). -/
def fsWrite : FS → String → Doc → FS
  | [], n, c => [(n, c)]
  | e :: t, n, c => if e.1 = n then (n, c) :: t else e :: fsWrite t n c

/-- Backup file name `{stem}.backup_{timestamp}{suffix}`. -/
def backup_name (now : String) : String := "index.backup_" ++ now ++ ".html"

/-- Log file name `modification_log_{timestamp}.txt`. -/
def log_name (now : String) : String := "modification_log_" ++ now ++ ".txt"

/-- `AppearanceControlModifier.save_log`: header plus one line per logged
modification. -/
def log_file_text (mods : List String) : Doc :=
  str "Leaflet.Control.Appearance Modification Log\n"
    ++ List.replicate 50 '=' ++ str "\n\n"
    ++ mods.foldl (fun acc m => acc ++ m.data ++ str "\n") []

/-- `main` of `add_appearance_control.py` over the abstract directory: the
missing-file guard, then backup / load / extract / rewrite / save /
save-log in the order of `process` (stdout output is modelled by the
returned message list). -/
def mainAdd (now : String) (fs : FS) : FS × List String :=
  match fsLookup fs "index.html" with
  | none => (fs, ["Error: index.html not found!"])
  | some content₀ =>
    let fs₁ := fsWrite fs (backup_name now) content₀
    let log₀ : List String :=
      ["Created backup: " ++ backup_name now,
       "Loaded index.html (" ++ toString content₀.length ++ " characters)"]
    let info := extract_layer_info content₀
    let log₁ := log₀ ++ ["Found " ++ toString info.tile_layers.length
      ++ " tile layers and " ++ toString info.geojson_layers.length
      ++ " GeoJSON layers"]
    let c₁ := add_plugin_references content₀
    let log₂ := log₁ ++ ["Added Leaflet.Control.Appearance plugin references"]
    let c₂ := modify_geojson_layers info c₁
    let log₃ := log₂ ++ ["Modified " ++ toString info.geojson_layers.length
      ++ " GeoJSON layers with appearance options"]
    let st := replace_layer_control info { content := c₂, modifications := log₃ }
    let log₄ := st.modifications ++ ["Saved modified content to index.html"]
    let fs₂ := fsWrite fs₁ "index.html" st.content
    let fs₃ := fsWrite fs₂ (log_name now) (log_file_text log₄)
    (fs₃, log₄)

/-- `main` of `fix_appearance_control.py` over the abstract directory: the
missing-file guard, then backup and the fix (which does not save when the
map variable is absent). -/
def mainFix (now : String) (fs : FS) : FS × List String :=
  match fsLookup fs "index.html" with
  | none => (fs, ["ERROR: index.html not found!"])
  | some content₀ =>
    let fs₁ := fsWrite fs (backup_name now) content₀
    match fix_appearance_control content₀ with
    | none => (fs₁, ["ERROR: Could not find map variable!"])
    | some c => (fsWrite fs₁ "index.html" c, ["Fix complete"])

/-- Worker for `activeAddToCount`: the first argument is the reversed
already-scanned prefix, used to see whether a match site is immediately
preceded by the comment marker `// `. -/
def activeAddToGo : Doc → Doc → Nat
  | _, [] => 0
  | hist, c :: t =>
    (if (mAddToCall (c :: t)).isSome && !((str " //").isPrefixOf hist)
     then 1 else 0)
      + activeAddToGo (c :: hist) t

/-- Number of positions of a document where a tile-layer auto-attach call
matches and is not immediately preceded by `// ` — the attach calls that
are still active after the fixup pass. -/
def activeAddToCount (s : Doc) : Nat := activeAddToGo [] s

/-- Concrete single-layer document for the C1 witness: one GeoJSON layer
constructor, no styler function. -/
def c1w_lid : Doc := str "geo_json_1a"

/-- Tail of the C1 witness document. -/
def c1w_rest : Doc := str "\n    foo: bar\x7d);"

/-- The C1 witness document. -/
def c1w_doc : Doc := geoJsonCtor c1w_lid ++ c1w_rest

/-- Layer info of the C1 witness: the layer has a display name. -/
def c1w_info : LayerInfo :=
  { geojson_layers := [c1w_lid], tile_layers := [],
    layer_names := [(c1w_lid, str "Roads")] }

/-- Concrete single-layer document for the C10 witness: one GeoJSON layer
whose identifier has no entry in the name mapping. -/
def c10w_lid : Doc := str "geo_json_2b"

/-- Tail of the C10 witness document. -/
def c10w_rest : Doc := str "\n    pointToLayer: g\x7d);"

/-- The C10 witness document. -/
def c10w_doc : Doc := geoJsonCtor c10w_lid ++ c10w_rest

/-- Layer info of the C10 witness: the name mapping has no entry for the
layer. -/
def c10w_info : LayerInfo :=
  { geojson_layers := [c10w_lid], tile_layers := [],
    layer_names := [(str "geo_json_ff", str "Other")] }

/-- C2 witness document containing exactly the Leaflet script tag. -/
def c2w_script_doc : Doc :=
  str "<script src=\x22https://cdn.jsdelivr.net/npm/leaflet@1.9.3/dist/leaflet.js\x22></script>"

/-- C2 witness document containing exactly the Leaflet stylesheet tag. -/
def c2w_css_doc : Doc :=
  str "<link rel=\x22stylesheet\x22 href=\x22https://cdn.jsdelivr.net/npm/leaflet@1.9.3/dist/leaflet.css\x22/>"

/-- C3 witness document: a map declaration and an appearance control whose
attach target already names that map. -/
def c3w_doc : Doc :=
  str "var map_ab = L.map(\x27m\x27);\nvar appearanceControl = L.control.appearance(a, b, c).addTo(map_ab);"

/-- Tail of the C4 document: the constructor's remaining options plus the
layer's styler function. -/
def c4_rest : Doc :=
  str "\n    onEachFeature: f\x7d);\nfunction geo_json_aa_styler(feature) \x7b return \x7b\x22fillColor\x22: \x22#ff0000\x22, \x22fillOpacity\x22: 0.4\x7d; \x7d"

/-- C4 document: one GeoJSON layer constructor together with its styler
function. -/
def c4_doc : Doc := geoJsonCtor (str "geo_json_aa") ++ c4_rest

/-- One application of the modifier's vector-layer rewriting step (layer
info extracted from the document it is applied to, as in `process`). -/
def c4_once : Doc := modify_geojson_layers (extract_layer_info c4_doc) c4_doc

/-- Second application of the vector-layer rewriting step, to the already
rewritten document. -/
def c4_twice : Doc :=
  modify_geojson_layers (extract_layer_info c4_once) c4_once

/-- C5 document: five tile-layer constructors. -/
def c5_doc : Doc :=
  str "var tile_layer_a1 = L.tileLayer(\n  \x22u1\x22,\n  \x7b\x22mz\x22: 1\x7d);\nvar tile_layer_b2 = L.tileLayer(\n  \x22u2\x22,\n  \x7b\x22mz\x22: 1\x7d);\nvar tile_layer_c3 = L.tileLayer(\n  \x22u3\x22,\n  \x7b\x22mz\x22: 1\x7d);\nvar tile_layer_d4 = L.tileLayer(\n  \x22u4\x22,\n  \x7b\x22mz\x22: 1\x7d);\nvar tile_layer_e5 = L.tileLayer(\n  \x22u5\x22,\n  \x7b\x22mz\x22: 1\x7d);\n"

/-- Expected result of the tile-name injection on `c5_doc`: the first four
constructors carry names from the fixed table, the fifth is untouched. -/
def c5_expected : Doc :=
  str "var tile_layer_a1 = L.tileLayer(\n  \x22u1\x22,\n  \x7b\n  \x22name\x22: \x22OpenStreetMap\x22,\x22mz\x22: 1\x7d);\nvar tile_layer_b2 = L.tileLayer(\n  \x22u2\x22,\n  \x7b\n  \x22name\x22: \x22Topographic Map\x22,\x22mz\x22: 1\x7d);\nvar tile_layer_c3 = L.tileLayer(\n  \x22u3\x22,\n  \x7b\n  \x22name\x22: \x22Light Map\x22,\x22mz\x22: 1\x7d);\nvar tile_layer_d4 = L.tileLayer(\n  \x22u4\x22,\n  \x7b\n  \x22name\x22: \x22Satellite Imagery\x22,\x22mz\x22: 1\x7d);\nvar tile_layer_e5 = L.tileLayer(\n  \x22u5\x22,\n  \x7b\x22mz\x22: 1\x7d);\n"

/-- C6 document: three distinct tile-layer auto-attach calls. -/
def c6_doc : Doc :=
  str "tile_layer_a1.addTo(map_01);\nvar x = 1;\ntile_layer_b2.addTo(map_01);\ntile_layer_c3.addTo(map_01);\n"

/-- Expected result of the attach-call commenting step on `c6_doc`: every
call but the first is commented out. -/
def c6_out : Doc :=
  str "tile_layer_a1.addTo(map_01);\nvar x = 1;\n// tile_layer_b2.addTo(map_01); // Commented out - managed by appearance control\n// tile_layer_c3.addTo(map_01); // Commented out - managed by appearance control\n"

/-- Small C6 witness document with a single attach call. -/
def c6w_doc : Doc := str "tile_layer_a1.addTo(map_01);\n"

/-- First attach call of the two-call C6 witness document. -/
def c6w2_c1 : Doc := str "tile_layer_a1.addTo(map_01);"

/-- Second attach call of the two-call C6 witness document. -/
def c6w2_c2 : Doc := str "tile_layer_b2.addTo(map_01);"

/-- Text between the two calls of the two-call C6 witness document. -/
def c6w2_mid : Doc := str "\nvar mid = 0;\n"

/-- Two-call C6 witness document (distinct call texts). -/
def c6w2_doc : Doc := c6w2_c1 ++ c6w2_mid ++ c6w2_c2 ++ str "\n"

/-- The attach call text duplicated in the C6 counterexample document. -/
def c6cex_call : Doc := str "tile_layer_a1.addTo(map_01);"

/-- C6 counterexample document: two textually identical attach calls. -/
def c6cex_doc : Doc :=
  c6cex_call ++ str "\nvar z = 2;\n" ++ c6cex_call ++ str "\n"

/-- Actual output of the commenting step on `c6cex_doc`: the
first-occurrence replacement comments the FIRST call and leaves the second
one active. -/
def c6cex_out : Doc :=
  str "// tile_layer_a1.addTo(map_01); // Commented out - managed by appearance control\nvar z = 2;\ntile_layer_a1.addTo(map_01);\n"

/-- The output the claim predicts for `c6cex_doc` (first call kept active,
second commented) — which the program does not produce. -/
def c6cex_claimed : Doc :=
  str "tile_layer_a1.addTo(map_01);\nvar z = 2;\n// tile_layer_a1.addTo(map_01); // Commented out - managed by appearance control\n"

/-- C7 document: a legacy layer-control block naming one base layer and two
overlays, with the `>` entity sequence in one name of each kind. -/
def c7_doc : Doc :=
  str "var layer_control_ab_layers = \x7b\n    base_layers : \x7b \x22Base \\u003e Map\x22 : tile_layer_01, \x7d,\n    overlays : \x7b \x22A\x22 : geo_json_1, \x22X \\u003e Y\x22 : geo_json_2, \x7d,\n\x7d;"

/-- C9 witness state: content with no legacy control block. -/
def c9w_state : ModState := { content := str "no control here", modifications := [] }

/-- C9 witness layer info. -/
def c9w_info : LayerInfo :=
  { geojson_layers := [], tile_layers := [], layer_names := [] }

theorem mLit_ok (pat : Doc) : MOk (mLit pat) := by
  intro s a x r h
  simp only [mLit] at h
  split at h
  · rename_i hp
    obtain ⟨t, ht⟩ := List.isPrefixOf_iff_prefix.mp hp
    cases h
    subst ht
    simp [List.drop_left]
  · cases h

theorem mLit_ne {pat : Doc} (hp : pat ≠ []) : MNe (mLit pat) := by
  intro s a x r h
  simp only [mLit] at h
  split at h
  · cases h; exact hp
  · cases h

theorem mMap_ok {m : MatchFn α} (f : α → β) (h : MOk m) : MOk (mMap f m) := by
  intro s a x r hm
  simp only [mMap] at hm
  cases e : m s with
  | none => rw [e] at hm; cases hm
  | some v =>
    obtain ⟨a', x', r'⟩ := v
    rw [e] at hm
    cases hm
    exact h e

theorem mMap_ne {m : MatchFn α} (f : α → β) (h : MNe m) : MNe (mMap f m) := by
  intro s a x r hm
  simp only [mMap] at hm
  cases e : m s with
  | none => rw [e] at hm; cases hm
  | some v =>
    obtain ⟨a', x', r'⟩ := v
    rw [e] at hm
    cases hm
    exact h e

theorem mThen_ok {m₁ : MatchFn α} {m₂ : MatchFn β}
    (h₁ : MOk m₁) (h₂ : MOk m₂) : MOk (mThen m₁ m₂) := by
  intro s a x r h
  simp only [mThen] at h
  cases e₁ : m₁ s with
  | none => rw [e₁] at h; cases h
  | some v =>
    obtain ⟨a₁, x₁, r₁⟩ := v
    rw [e₁] at h
    dsimp only at h
    cases e₂ : m₂ r₁ with
    | none => rw [e₂] at h; cases h
    | some w =>
      obtain ⟨b, x₂, r₂⟩ := w
      rw [e₂] at h
      cases h
      rw [h₁ e₁, h₂ e₂, List.append_assoc]

theorem mThen_ne_left {m₁ : MatchFn α} {m₂ : MatchFn β}
    (h₁ : MNe m₁) : MNe (mThen m₁ m₂) := by
  intro s a x r h
  simp only [mThen] at h
  cases e₁ : m₁ s with
  | none => rw [e₁] at h; cases h
  | some v =>
    obtain ⟨a₁, x₁, r₁⟩ := v
    rw [e₁] at h
    dsimp only at h
    cases e₂ : m₂ r₁ with
    | none => rw [e₂] at h; cases h
    | some w =>
      obtain ⟨b, x₂, r₂⟩ := w
      rw [e₂] at h
      cases h
      intro hx
      rcases List.append_eq_nil.mp hx with ⟨hx₁, _⟩
      exact h₁ e₁ hx₁

theorem mPlus_ok (p : Char → Bool) : MOk (mPlus p) := by
  intro s a x r h
  simp only [mPlus] at h
  split at h
  · cases h
  · cases h
    exact (List.takeWhile_append_dropWhile p s).symm

theorem mPlus_ne (p : Char → Bool) : MNe (mPlus p) := by
  intro s a x r h
  simp only [mPlus] at h
  split at h
  · cases h
  · rename_i he
    cases h
    simpa [List.isEmpty_iff] using he

theorem mStar_ok (p : Char → Bool) : MOk (mStar p) := by
  intro s a x r h
  simp only [mStar] at h
  cases h
  exact (List.takeWhile_append_dropWhile p s).symm

theorem mUntil_ok {m : MatchFn α} (hm : MOk m) : MOk (mUntil m) := by
  intro s
  induction s with
  | nil =>
    intro a x r h
    simp only [mUntil] at h
    cases e : m [] with
    | none => rw [e] at h; cases h
    | some v =>
      obtain ⟨a₀, x₀, r₀⟩ := v
      rw [e] at h
      cases h
      exact hm e
  | cons c t ih =>
    intro a x r h
    simp only [mUntil] at h
    cases e : m (c :: t) with
    | some v =>
      obtain ⟨a₀, x₀, r₀⟩ := v
      rw [e] at h
      cases h
      exact hm e
    | none =>
      rw [e] at h
      cases e' : mUntil m t with
      | none => rw [e'] at h; cases h
      | some w =>
        obtain ⟨g, x', r'⟩ := w
        rw [e'] at h
        cases h
        have := ih e'
        simp [this]

theorem mUntil_ne {m : MatchFn α} (hm : MNe m) : MNe (mUntil m) := by
  intro s
  induction s with
  | nil =>
    intro a x r h
    simp only [mUntil] at h
    cases e : m [] with
    | none => rw [e] at h; cases h
    | some v =>
      obtain ⟨a₀, x₀, r₀⟩ := v
      rw [e] at h
      cases h
      exact hm e
  | cons c t ih =>
    intro a x r h
    simp only [mUntil] at h
    cases e : m (c :: t) with
    | some v =>
      obtain ⟨a₀, x₀, r₀⟩ := v
      rw [e] at h
      cases h
      exact hm e
    | none =>
      rw [e] at h
      cases e' : mUntil m t with
      | none => rw [e'] at h; cases h
      | some w =>
        obtain ⟨g, x', r'⟩ := w
        rw [e'] at h
        cases h
        simp

theorem scanFirst_ok {m : MatchFn α} (hok : MOk m) (hne : MNe m) :
    ∀ {s p : Doc} {a : α} {x r : Doc},
      scanFirst m s = some (p, a, x, r) → s = p ++ x ++ r ∧ x ≠ [] := by
  intro s
  induction s with
  | nil =>
    intro p a x r h
    simp only [scanFirst] at h
    cases e : m [] with
    | none => rw [e] at h; cases h
    | some v =>
      obtain ⟨a₀, x₀, r₀⟩ := v
      rw [e] at h
      cases h
      exact ⟨by simpa using hok e, hne e⟩
  | cons c t ih =>
    intro p a x r h
    simp only [scanFirst] at h
    cases e : m (c :: t) with
    | some v =>
      obtain ⟨a₀, x₀, r₀⟩ := v
      rw [e] at h
      cases h
      exact ⟨by simpa using hok e, hne e⟩
    | none =>
      rw [e] at h
      cases e' : scanFirst m t with
      | none => rw [e'] at h; cases h
      | some w =>
        obtain ⟨p', a', x', r'⟩ := w
        rw [e'] at h
        cases h
        obtain ⟨ht, hx⟩ := ih e'
        exact ⟨by simp [ht], hx⟩

theorem subFirst_some {m : MatchFn α} (repl : α → Doc → Doc)
    {s p : Doc} {a : α} {x r : Doc}
    (h : scanFirst m s = some (p, a, x, r)) :
    subFirst m repl s = p ++ repl a x ++ r := by
  simp [subFirst, h]

theorem subFirst_none {m : MatchFn α} (repl : α → Doc → Doc) {s : Doc}
    (h : scanFirst m s = none) : subFirst m repl s = s := by
  simp [subFirst, h]

theorem subAll_none {m : MatchFn α} (repl : α → Doc → Doc) {s : Doc}
    (h : scanFirst m s = none) : subAll m repl s = s := by
  simp [subAll, subAllGo, h]

theorem subAllGo_fuel {m : MatchFn α} (hok : MOk m) (hne : MNe m)
    (repl : α → Doc → Doc) :
    ∀ f₁ f₂ (s : Doc), s.length < f₁ → s.length < f₂ →
      subAllGo m repl f₁ s = subAllGo m repl f₂ s := by
  intro f₁
  induction f₁ with
  | zero => intro f₂ s h₁ _; omega
  | succ f ih =>
    intro f₂ s h₁ h₂
    cases f₂ with
    | zero => omega
    | succ f₂ =>
      simp only [subAllGo]
      cases e : scanFirst m s with
      | none => rfl
      | some q =>
        obtain ⟨p, a, x, r⟩ := q
        obtain ⟨hs, hx⟩ := scanFirst_ok hok hne e
        have hr : r.length < s.length := by
          subst hs
          have := List.length_pos.mpr hx
          simp [List.length_append]
          omega
        dsimp only
        rw [ih f₂ r (by omega) (by omega)]

theorem subAll_some {m : MatchFn α} (hok : MOk m) (hne : MNe m)
    (repl : α → Doc → Doc) {s p : Doc} {a : α} {x r : Doc}
    (h : scanFirst m s = some (p, a, x, r)) :
    subAll m repl s = p ++ repl a x ++ subAll m repl r := by
  obtain ⟨hs, hx⟩ := scanFirst_ok hok hne h
  have hr : r.length < s.length := by
    subst hs
    have := List.length_pos.mpr hx
    simp [List.length_append]
    omega
  have hstep : subAllGo m repl (s.length + 1) s
      = p ++ repl a x ++ subAllGo m repl s.length r := by
    simp only [subAllGo, h]
  rw [subAll, hstep,
    subAllGo_fuel hok hne repl s.length (r.length + 1) r (by omega) (by omega)]
  rfl

theorem geoJsonCtor_ne (lid : Doc) : geoJsonCtor lid ≠ [] := by
  intro h
  simp only [geoJsonCtor] at h
  rcases List.append_eq_nil.mp h with ⟨_, h2⟩
  exact absurd h2 (by decide)

theorem mAppearance_ok : MOk mAppearance :=
  mMap_ok _ (mThen_ok (mLit_ok _)
    (mUntil_ok (mThen_ok (mLit_ok _) (mThen_ok (mPlus_ok _) (mLit_ok _)))))

theorem mAppearance_ne : MNe mAppearance :=
  mMap_ne _ (mThen_ne_left (mLit_ne (by decide)))

theorem scanFirst_here {m : MatchFn α} {s : Doc} {a : α} {x r : Doc}
    (h : m s = some (a, x, r)) : scanFirst m s = some ([], a, x, r) := by
  cases s with
  | nil => simp [scanFirst, h]
  | cons c t => simp [scanFirst, h]

theorem mLit_here (pat t : Doc) : mLit pat (pat ++ t) = some ((), pat, t) := by
  have hp : pat.isPrefixOf (pat ++ t) = true :=
    List.isPrefixOf_iff_prefix.mpr (List.prefix_append pat t)
  simp [mLit, hp, List.drop_left]

theorem prefix_of_append_tail {pat y t t' : Doc} (hlen : pat.length ≤ y.length)
    (h : pat <+: y ++ t) : pat <+: y ++ t' := by
  rw [List.prefix_iff_eq_take] at h ⊢
  rw [List.take_append_eq_append_take, Nat.sub_eq_zero_of_le hlen,
    List.take_zero, List.append_nil] at h ⊢
  exact h

theorem mLit_none_tail {pat y t t' : Doc} (hlen : pat.length ≤ y.length)
    (h : mLit pat (y ++ t) = none) : mLit pat (y ++ t') = none := by
  simp only [mLit] at h ⊢
  split at h
  · cases h
  · rename_i hnp
    rw [if_neg]
    intro hp
    exact hnp (List.isPrefixOf_iff_prefix.mpr
      (prefix_of_append_tail hlen (List.isPrefixOf_iff_prefix.mp hp)))

/-- The leftmost occurrence of a literal pattern is determined by the text
up to and including that occurrence: whatever follows it may be replaced
without moving the match. -/
theorem scanFirst_mLit_tail (pat : Doc) :
    ∀ (p t t' : Doc),
      scanFirst (mLit pat) (p ++ (pat ++ t)) = some (p, (), pat, t) →
      scanFirst (mLit pat) (p ++ (pat ++ t')) = some (p, (), pat, t') := by
  intro p
  induction p with
  | nil =>
    intro t t' _
    simpa using scanFirst_here (mLit_here pat t')
  | cons c p' ih =>
    intro t t' h
    simp only [List.cons_append] at h ⊢
    cases e : mLit pat (c :: (p' ++ (pat ++ t))) with
    | some v =>
      obtain ⟨a₀, x₀, r₀⟩ := v
      simp only [scanFirst, e] at h
      simp at h
    | none =>
      simp only [scanFirst, e] at h
      cases e' : scanFirst (mLit pat) (p' ++ (pat ++ t)) with
      | none => rw [e'] at h; cases h
      | some w =>
        obtain ⟨q, a, x, r⟩ := w
        rw [e'] at h
        dsimp only at h
        simp only [Option.some.injEq, Prod.mk.injEq, List.cons.injEq] at h
        obtain ⟨⟨-, hq⟩, -, hx, hr⟩ := h
        rw [hq, hx, hr] at e'
        have hy : c :: (p' ++ (pat ++ t)) = (c :: (p' ++ pat)) ++ t := by
          simp [List.append_assoc]
        have hlen : pat.length ≤ (c :: (p' ++ pat)).length := by
          simp only [List.length_cons, List.length_append]
          omega
        have e'' : mLit pat (c :: (p' ++ (pat ++ t'))) = none := by
          have hy' : c :: (p' ++ (pat ++ t')) = (c :: (p' ++ pat)) ++ t' := by
            simp [List.append_assoc]
          rw [hy']
          exact mLit_none_tail hlen (by rw [← hy]; exact e)
        simp only [scanFirst, e'']
        rw [ih t t' e']

/-- C1: for every vector-layer constructor matched by the modifier, the
rewritten constructor's options object carries `name`, `color` and
`opacity` as its first three fields (the injected `options_code` text is
placed immediately after the opening brace of the constructor, ahead of all
existing fields), with the color and opacity equal to the `fillColor` and
`fillOpacity` extracted from the layer's styler function, and equal to the
fixed defaults `#000000` and `0.6` when the styler function or the
respective field is absent. -/
theorem C1_vector_layer_options (info : LayerInfo) (doc pre post lid : Doc)
    (hlayers : info.geojson_layers = [lid])
    (hscan : scanFirst (mLit (geoJsonCtor lid)) doc
      = some (pre, (), geoJsonCtor lid, post))
    (hrest : scanFirst (mLit (geoJsonCtor lid)) post = none) :
    modify_geojson_layers info doc
      = pre ++ geoJsonCtor lid
          ++ options_code (dictGet info.layer_names lid lid)
              (extract_layer_styles doc lid).1 (extract_layer_styles doc lid).2
          ++ post
    ∧ (scanFirst (mStyler lid) doc = none →
        extract_layer_styles doc lid = (str "#000000", str "0.6"))
    ∧ (∀ p₂ sc x₂ r₂, scanFirst (mStyler lid) doc = some (p₂, sc, x₂, r₂) →
        ((scanFirst mFillColor sc = none →
            (extract_layer_styles doc lid).1 = str "#000000")
        ∧ (∀ pc c xc rc, scanFirst mFillColor sc = some (pc, c, xc, rc) →
            (extract_layer_styles doc lid).1 = c)
        ∧ (scanFirst mFillOpacity sc = none →
            (extract_layer_styles doc lid).2 = str "0.6")
        ∧ (∀ po o xo ro, scanFirst mFillOpacity sc = some (po, o, xo, ro) →
            (extract_layer_styles doc lid).2 = o))) := by
  refine ⟨?_, ?_, ?_⟩
  · simp only [modify_geojson_layers, hlayers, List.foldl_cons, List.foldl_nil]
    rw [subAll_some (mLit_ok _) (mLit_ne (geoJsonCtor_ne lid)) _ hscan,
      subAll_none _ hrest]
    simp [List.append_assoc]
  · intro h
    simp [extract_layer_styles, h]
  · intro p₂ sc x₂ r₂ h
    refine ⟨?_, ?_, ?_, ?_⟩
    · intro hc; simp [extract_layer_styles, h, hc]
    · intro pc c xc rc hc; simp [extract_layer_styles, h, hc]
    · intro ho; simp [extract_layer_styles, h, ho]
    · intro po o xo ro ho; simp [extract_layer_styles, h, ho]

/-- Witness for C1 at a concrete single-layer document with a display name
and no styler function: the three fields are injected first, with the
default color and opacity. -/
theorem C1_witness :
    modify_geojson_layers c1w_info c1w_doc
      = geoJsonCtor c1w_lid
          ++ options_code (str "Roads") (str "#000000") (str "0.6")
          ++ c1w_rest :=
  ((C1_vector_layer_options c1w_info c1w_doc [] c1w_rest c1w_lid rfl
      (by decide) (by decide)).1).trans (by decide)

/-- C2: the modifier's plugin-reference step inserts the plugin script tag
immediately after the matched framework script tag (one insertion,
everything else unchanged) and the plugin stylesheet tag immediately after
the matched framework stylesheet tag; when an anchor is absent the
corresponding insertion leaves the document text unchanged. -/
theorem C2_plugin_references (doc p x r doc' q y t : Doc)
    (hscript : scanFirst mLeafletScript doc = some (p, (), x, r))
    (hcss : scanFirst mLeafletCss doc' = some (q, (), y, t)) :
    insert_plugin_script doc = p ++ x ++ str "\n" ++ plugin_script ++ r
    ∧ insert_plugin_css doc' = q ++ y ++ str "\n" ++ plugin_css ++ t
    ∧ (∀ d, scanFirst mLeafletScript d = none → insert_plugin_script d = d)
    ∧ (∀ d, scanFirst mLeafletCss d = none → insert_plugin_css d = d) := by
  refine ⟨?_, ?_, ?_, ?_⟩
  · simp only [insert_plugin_script]
    rw [subFirst_some _ hscript]
    simp [List.append_assoc]
  · simp only [insert_plugin_css]
    rw [subFirst_some _ hcss]
    simp [List.append_assoc]
  · intro d h
    simp only [insert_plugin_script]
    exact subFirst_none _ h
  · intro d h
    simp only [insert_plugin_css]
    exact subFirst_none _ h

/-- Witness for C2 at concrete one-tag documents. -/
theorem C2_witness :
    insert_plugin_script c2w_script_doc
      = c2w_script_doc ++ str "\n" ++ plugin_script
    ∧ insert_plugin_css c2w_css_doc
      = c2w_css_doc ++ str "\n" ++ plugin_css := by
  have h := C2_plugin_references c2w_script_doc [] c2w_script_doc []
    c2w_css_doc [] c2w_css_doc [] (by decide) (by decide)
  exact ⟨h.1.trans (by decide), h.2.1.trans (by decide)⟩

/-- C3: the fixup pass's map-identifier step is idempotent on an
already-correct document — when the appearance control's `.addTo` target
equals the detected map variable the step returns the document unchanged —
and it rewrites the attach target (to the detected map variable) only when
they differ. -/
theorem C3_fix_map_id (doc actual pd xd rd p gap oldHex x r : Doc)
    (_hdetect : scanFirst mMapDecl doc = some (pd, actual, xd, rd))
    (hmatch : scanFirst mAppearance doc = some (p, (gap, oldHex), x, r))
    (hrest : scanFirst mAppearance r = none) :
    (str "map_" ++ oldHex = actual → fix_map_id actual doc = doc)
    ∧ (str "map_" ++ oldHex ≠ actual →
        fix_map_id actual doc
          = p ++ appHeader ++ gap ++ str ")" ++ str ".addTo(" ++ actual
              ++ str ");" ++ r) := by
  constructor
  · intro heq
    simp only [fix_map_id, hmatch]
    simp [heq]
  · intro hne
    simp only [fix_map_id, hmatch]
    rw [if_neg hne]
    rw [subAll_some mAppearance_ok mAppearance_ne _ hmatch,
      subAll_none _ hrest]
    simp [List.append_assoc]

/-- Witness for C3 at a concrete document whose attach target already
equals the detected map variable: the step changes nothing. -/
theorem C3_witness : fix_map_id (str "map_ab") c3w_doc = c3w_doc :=
  (C3_fix_map_id c3w_doc (str "map_ab") [] (str "var map_ab = L.map")
    (str "(\x27m\x27);\nvar appearanceControl = L.control.appearance(a, b, c).addTo(map_ab);")
    (str "var map_ab = L.map(\x27m\x27);\n") (str "a, b, c") (str "ab")
    (str "var appearanceControl = L.control.appearance(a, b, c).addTo(map_ab);")
    [] (by decide) (by decide) (by decide)).1 (by decide)

/-- C4: the vector-layer rewriting step is not idempotent — proved
universally over arbitrary single-constructor contexts: the rewritten
document still contains the matched constructor prefix, so a second
application splices a second `options_code` block (name, color, opacity)
in front of the first one, duplicating all three properties; the concrete
conjuncts count one copy of each field after one application and two after
two. -/
theorem C4_modify_not_idempotent (info : LayerInfo) (doc pre post lid : Doc)
    (hlayers : info.geojson_layers = [lid])
    (hscan : scanFirst (mLit (geoJsonCtor lid)) doc
      = some (pre, (), geoJsonCtor lid, post))
    (hrest : scanFirst (mLit (geoJsonCtor lid)) post = none)
    (hrest₂ : scanFirst (mLit (geoJsonCtor lid))
        (options_code (dictGet info.layer_names lid lid)
            (extract_layer_styles doc lid).1 (extract_layer_styles doc lid).2
          ++ post) = none) :
    modify_geojson_layers info (modify_geojson_layers info doc)
      = pre ++ geoJsonCtor lid
          ++ options_code (dictGet info.layer_names lid lid)
              (extract_layer_styles (modify_geojson_layers info doc) lid).1
              (extract_layer_styles (modify_geojson_layers info doc) lid).2
          ++ options_code (dictGet info.layer_names lid lid)
              (extract_layer_styles doc lid).1 (extract_layer_styles doc lid).2
          ++ post
    ∧ countOccur (str "name: \x22") c4_once = 1
    ∧ countOccur (str "color: \x22") c4_once = 1
    ∧ countOccur (str "opacity: ") c4_once = 1
    ∧ countOccur (str "name: \x22") c4_twice = 2
    ∧ countOccur (str "color: \x22") c4_twice = 2
    ∧ countOccur (str "opacity: ") c4_twice = 2 := by
  have hctor := geoJsonCtor_ne lid
  have hdoc : doc = pre ++ (geoJsonCtor lid ++ post) := by
    have h := (scanFirst_ok (mLit_ok _) (mLit_ne hctor) hscan).1
    simpa [List.append_assoc] using h
  have hstep1 : modify_geojson_layers info doc
      = pre ++ (geoJsonCtor lid
          ++ (options_code (dictGet info.layer_names lid lid)
                (extract_layer_styles doc lid).1 (extract_layer_styles doc lid).2
              ++ post)) := by
    simp only [modify_geojson_layers, hlayers, List.foldl_cons, List.foldl_nil]
    rw [subAll_some (mLit_ok _) (mLit_ne hctor) _ hscan, subAll_none _ hrest]
    simp [List.append_assoc]
  have hscan' : scanFirst (mLit (geoJsonCtor lid))
      (pre ++ (geoJsonCtor lid ++ post)) = some (pre, (), geoJsonCtor lid, post) := by
    rw [← hdoc]
    exact hscan
  have hscan₂ := scanFirst_mLit_tail (geoJsonCtor lid) pre post
    (options_code (dictGet info.layer_names lid lid)
        (extract_layer_styles doc lid).1 (extract_layer_styles doc lid).2
      ++ post) hscan'
  refine ⟨?_, ?_, ?_, ?_, ?_, ?_, ?_⟩
  · set once := modify_geojson_layers info doc
    simp only [modify_geojson_layers, hlayers, List.foldl_cons, List.foldl_nil]
    rw [hstep1]
    rw [subAll_some (mLit_ok _) (mLit_ne hctor) _ hscan₂, subAll_none _ hrest₂]
    simp [List.append_assoc]
  · decide
  · decide
  · decide
  · decide
  · decide
  · decide

/-- Witness for C4 at a concrete styled document: the second application
duplicates the three injected fields verbatim. -/
theorem C4_witness :
    modify_geojson_layers (extract_layer_info c4_doc)
        (modify_geojson_layers (extract_layer_info c4_doc) c4_doc)
      = geoJsonCtor (str "geo_json_aa")
          ++ options_code (str "geo_json_aa") (str "#ff0000") (str "0.4")
          ++ options_code (str "geo_json_aa") (str "#ff0000") (str "0.4")
          ++ c4_rest :=
  ((C4_modify_not_idempotent (extract_layer_info c4_doc) c4_doc [] c4_rest
      (str "geo_json_aa") (by decide) (by decide) (by decide) (by decide)).1).trans
    (by decide)

/-- C5: the fixup pass assigns tile-layer names positionally from the fixed
four-entry table; with five tile layers the first four receive an injected
name field and the fifth constructor is left verbatim. -/
theorem C5_tile_names_positional :
    add_tile_names (findAll mTileDecl c5_doc) c5_doc = c5_expected
    ∧ (findAll mTileDecl c5_doc).length = 5
    ∧ countOccur (str "\x22name\x22:") c5_expected = 4
    ∧ countOccur
        (str "var tile_layer_e5 = L.tileLayer(\n  \x22u5\x22,\n  \x7b\x22mz\x22: 1\x7d);")
        c5_expected = 1 := by
  refine ⟨?_, ?_, ?_, ?_⟩ <;> decide

/-- C6 (amended): with at most one tile-layer auto-attach call the
commenting step is the identity (universally).  With more than one call,
each call after the first has the first occurrence of its text replaced by
a commented copy: for documents with two calls of distinct text this
comments exactly the second call, leaving the first one active (proved
over arbitrary contexts), and on a concrete three-distinct-call document
every call but the first is commented, leaving exactly one active attach
call. -/
theorem C6_comment_extra_addto (doc pre post c₁ c₂ A B : Doc)
    (hcalls : findAllTexts mAddToCall doc = [c₁, c₂])
    (_hne : c₁ ≠ c₂)
    (hscan : scanFirst (mLit c₂) doc = some (pre, (), c₂, post))
    (hpre : pre = A ++ c₁ ++ B) :
    comment_extra_addto doc
      = A ++ c₁ ++ B ++ str "// " ++ c₂ ++ comment_suffix ++ post
    ∧ (∀ d, (findAllTexts mAddToCall d).length ≤ 1 → comment_extra_addto d = d)
    ∧ comment_extra_addto c6_doc = c6_out
    ∧ (findAllTexts mAddToCall c6_doc).length = 3
    ∧ activeAddToCount c6_doc = 3
    ∧ activeAddToCount c6_out = 1 := by
  refine ⟨?_, ?_, ?_, ?_, ?_, ?_⟩
  · simp only [comment_extra_addto, hcalls]
    rw [if_pos (by simp)]
    simp only [List.enum, List.enumFrom, List.foldl]
    norm_num
    simp only [pyReplaceFirst]
    rw [subFirst_some _ hscan, hpre]
    simp [List.append_assoc]
  · intro d h
    simp only [comment_extra_addto]
    rw [if_neg (by omega)]
  · decide
  · decide
  · decide
  · decide

/-- Counterexample for C6 as originally stated: with two textually
identical attach calls, `str.replace(call, ..., 1)` comments the FIRST
occurrence, so the first call is commented and the second call remains
active — the opposite of "every such call except the first is commented
out" (the output even starts with the comment marker). -/
theorem C6_counterexample :
    (findAllTexts mAddToCall c6cex_doc).length = 2
    ∧ comment_extra_addto c6cex_doc = c6cex_out
    ∧ comment_extra_addto c6cex_doc ≠ c6cex_claimed
    ∧ List.take 3 (comment_extra_addto c6cex_doc) = str "// "
    ∧ activeAddToCount c6cex_out = 1 := by
  refine ⟨?_, ?_, ?_, ?_, ?_⟩ <;> decide

/-- Witness for C6 at a concrete two-distinct-call document: the second
call is commented, the first stays active. -/
theorem C6_witness :
    comment_extra_addto c6w2_doc
      = str "tile_layer_a1.addTo(map_01);\nvar mid = 0;\n// tile_layer_b2.addTo(map_01); // Commented out - managed by appearance control\n" :=
  ((C6_comment_extra_addto c6w2_doc (c6w2_c1 ++ c6w2_mid) (str "\n")
      c6w2_c1 c6w2_c2 [] c6w2_mid (by decide) (by decide) (by decide)
      (by decide)).1).trans (by decide)

/-- C7: extraction of the display-name mapping from the legacy control
block: base-layer names are stored verbatim, overlay names have every
occurrence of the literal six-character sequence for `>` replaced by `>`
before storage, and the overlay `"A" : geo_json_1` yields the mapping
entry `geo_json_1` to `A`. -/
theorem C7_layer_name_mapping :
    (extract_layer_info c7_doc).layer_names
      = [(str "tile_layer_01", str "Base \\u003e Map"),
         (str "geo_json_1", str "A"),
         (str "geo_json_2", str "X > Y")]
    ∧ dictFind (extract_layer_info c7_doc).layer_names (str "geo_json_1")
      = some (str "A") := by
  constructor <;> decide

/-- C8: when the target HTML file does not exist, both scripts return up
front with only a diagnostic: the directory is unchanged (no backup, no log
file, no mutated document). -/
theorem C8_missing_file_abort (now : String) (fs : FS)
    (h : fsLookup fs "index.html" = none) :
    mainAdd now fs = (fs, ["Error: index.html not found!"])
    ∧ mainFix now fs = (fs, ["ERROR: index.html not found!"]) := by
  constructor
  · simp [mainAdd, h]
  · simp [mainFix, h]

/-- Witness for C8 at the empty directory. -/
theorem C8_witness :
    mainAdd "20251012" [] = ([], ["Error: index.html not found!"])
    ∧ mainFix "20251012" [] = ([], ["ERROR: index.html not found!"]) :=
  C8_missing_file_abort "20251012" [] rfl

/-- C9: when the control-replacement step finds no legacy control block the
step is a silent no-op: the document content is unchanged, exactly one log
line is appended, and the step returns normally (it is a total function, so
no hard failure is possible). -/
theorem C9_control_replace_noop (info : LayerInfo) (st : ModState)
    (h : scanFirst mControlPattern st.content = none) :
    (replace_layer_control info st).content = st.content
    ∧ (replace_layer_control info st).modifications
      = st.modifications
        ++ ["Replaced L.control.layers() with L.control.appearance()"] := by
  constructor
  · simp only [replace_layer_control]
    exact subAll_none _ h
  · rfl

/-- Witness for C9 at a concrete control-free document. -/
theorem C9_witness :
    (replace_layer_control c9w_info c9w_state).content = str "no control here" :=
  (C9_control_replace_noop c9w_info c9w_state (by decide)).1

/-- C10: a vector layer whose identifier has no entry in the extracted
name mapping still gets a `name` field, whose value is the layer's own
variable identifier. -/
theorem C10_name_fallback (info : LayerInfo) (doc pre post lid : Doc)
    (hlayers : info.geojson_layers = [lid])
    (hname : dictFind info.layer_names lid = none)
    (hscan : scanFirst (mLit (geoJsonCtor lid)) doc
      = some (pre, (), geoJsonCtor lid, post))
    (hrest : scanFirst (mLit (geoJsonCtor lid)) post = none) :
    modify_geojson_layers info doc
      = pre ++ geoJsonCtor lid
          ++ options_code lid (extract_layer_styles doc lid).1
              (extract_layer_styles doc lid).2
          ++ post := by
  simp only [modify_geojson_layers, hlayers, List.foldl_cons, List.foldl_nil,
    dictGet, hname, Option.getD_none]
  rw [subAll_some (mLit_ok _) (mLit_ne (geoJsonCtor_ne lid)) _ hscan,
    subAll_none _ hrest]
  simp [List.append_assoc]

/-- Witness for C10 at a concrete document whose layer has no name entry:
the injected name is the identifier itself. -/
theorem C10_witness :
    modify_geojson_layers c10w_info c10w_doc
      = geoJsonCtor c10w_lid
          ++ options_code c10w_lid (str "#000000") (str "0.6")
          ++ c10w_rest :=
  (C10_name_fallback c10w_info c10w_doc [] c10w_rest c10w_lid rfl (by decide)
    (by decide) (by decide)).trans (by decide)

end MMap
